import Mathlib

/-!
Shallow embedding of the Stream Session Supervisor (src/stream_decoder.py,
class StreamDecoder) together with the configuration constants it reads
(src/config.py, class Config).

The Python object state is the dict `active_streams`, embedded as an
association list from stream id to the stored per-stream record.  The
external world (process liveness, exceptions raised by terminate/kill,
spawn results, the clock) is an explicit `Env` parameter.  Each method is
a pure function threading the registry state; `stop_stream` and
`start_stream` additionally emit the ordered list of externally visible
events (termination signals, kills, registry removals, spawns, registry
insertions) so that ordering properties of the spec can be stated.
-/

namespace RpiPlayer

/-- Lifecycle states stored in a registry entry: the Python strings
"starting", "playing", "error", "stopped". -/
inductive Status where
  | starting
  | playing
  | error
  | stopped
deriving Repr, DecidableEq

/-- One registry entry: the dict stored in `active_streams[stream_id]`.
The process handle is abstracted to its identity `pid`. -/
structure StreamInfo where
  pid : Nat
  url : String
  stype : String
  start_time : Nat
  status : Status
deriving Repr, DecidableEq

/-- The `active_streams` dict of the StreamDecoder: id to entry. -/
abbrev Registry := List (String × StreamInfo)

/-- Dict lookup: `active_streams.get(stream_id)`. -/
def lookupS (sid : String) : Registry → Option StreamInfo
  | [] => none
  | p :: ps => if p.1 = sid then some p.2 else lookupS sid ps

/-- Dict deletion: `del active_streams[stream_id]`. -/
def removeS (sid : String) : Registry → Registry
  | [] => []
  | p :: ps => if p.1 = sid then removeS sid ps else p :: removeS sid ps

/-- Dict assignment: `active_streams[stream_id] = info` (one entry per key). -/
def insertS (sid : String) (info : StreamInfo) (l : Registry) : Registry :=
  (sid, info) :: removeS sid l

/-- In-place mutation of the status field of the entry stored under `sid`,
as performed by the monitor and the output classifier. -/
def updStatus (sid : String) (st : Status) : Registry → Registry
  | [] => []
  | p :: ps =>
    if p.1 = sid then (p.1, { p.2 with status := st }) :: updStatus sid st ps
    else p :: updStatus sid st ps

/-- Number of entries stored under a key. -/
def countKey (sid : String) : Registry → Nat
  | [] => 0
  | p :: ps => (if p.1 = sid then 1 else 0) + countKey sid ps

/-- Whether the character list `p ++ _ = c` holds, i.e. `p` starts `c`. -/
def startsWithL : List Char → List Char → Bool
  | [], _ => true
  | _ :: _, [] => false
  | p :: ps, c :: cs => p == c && startsWithL ps cs

/-- Whether `pat` occurs as a contiguous run inside the character list. -/
def hasSubL (pat : List Char) : List Char → Bool
  | [] => startsWithL pat []
  | c :: cs => startsWithL pat (c :: cs) || hasSubL pat cs

/-- Python substring containment `pat in s`. -/
def pyIn (pat s : String) : Bool := hasSubL pat.data s.data

/-- Python `s.lower()`. -/
def strLower (s : String) : String := ⟨s.data.map Char.toLower⟩

/-- Configuration constants read by the command builder (src/config.py). -/
structure FfmpegConfig where
  FFMPEG_PATH : String
  FFMPEG_LOG_LEVEL : String
  STREAM_TIMEOUT : Nat
  VIDEO_CODEC : String
  AUDIO_CODEC : String

/-- The concrete values of class Config in src/config.py. -/
def theConfig : FfmpegConfig :=
  { FFMPEG_PATH := "/usr/bin/ffmpeg"
    FFMPEG_LOG_LEVEL := "error"
    STREAM_TIMEOUT := 30
    VIDEO_CODEC := "h264_v4l2m2m"
    AUDIO_CODEC := "aac" }

/-- The per-session output sink `f/tmp/stream_\x7bstream_id\x7d.m3u8`. -/
def outputSinkPath (stream_id : String) : String :=
  "/tmp/stream_" ++ stream_id ++ ".m3u8"

/-- StreamDecoder._build_ffmpeg_command: pure construction of the argument
vector from (stream_url, stream_type, stream_id) and the configuration. -/
def _build_ffmpeg_command (cfg : FfmpegConfig)
    (stream_url stream_type stream_id : String) : List String :=
  let base_cmd := [cfg.FFMPEG_PATH,
    "-loglevel", cfg.FFMPEG_LOG_LEVEL,
    "-stimeout", toString (cfg.STREAM_TIMEOUT * 1000000)]
  let input_opts :=
    if strLower stream_type = "srt" then ["-i", "srt://" ++ stream_url]
    else if strLower stream_type = "rtmp" then ["-i", "rtmp://" ++ stream_url]
    else if strLower stream_type = "udp" then ["-i", "udp://" ++ stream_url]
    else ["-i", stream_url]
  let output_opts := ["-c:v", cfg.VIDEO_CODEC,
    "-c:a", cfg.AUDIO_CODEC,
    "-f", "hls",
    "-hls_time", "2",
    "-hls_list_size", "3",
    "-hls_flags", "delete_segments",
    outputSinkPath stream_id]
  base_cmd ++ input_opts ++ output_opts

/-- The external world: per-process liveness as seen by poll(), whether
terminate() or kill() raises, what Popen returns (none = raises), and the
current clock value. -/
structure Env where
  exited : Nat → Bool
  terminateRaises : Nat → Bool
  aliveAfterTerminate : Nat → Bool
  killRaises : Nat → Bool
  spawn : Option Nat
  now : Nat

/-- Externally visible events of start/stop, in program order. -/
inductive Ev where
  | term (pid : Nat)
  | kill (pid : Nat)
  | removeReg (sid : String)
  | spawnEv (pid : Nat)
  | insertReg (sid : String)
deriving Repr, DecidableEq

/-- Index of the first occurrence of an event in a trace (trace length if
absent). -/
def idxOfEv (a : Ev) : List Ev → Nat
  | [] => 0
  | b :: bs => if a = b then 0 else idxOfEv a bs + 1

/-- Event `a` occurs strictly before event `b` in the trace. -/
abbrev evBefore (a b : Ev) (tr : List Ev) : Prop := idxOfEv a tr < idxOfEv b tr

/-- StreamDecoder.stop_stream.  Unknown id: returns False.  Otherwise it
calls terminate() (which may raise), sleeps, calls kill() if poll() still
reports the process alive (kill may raise), and only then deletes the
registry entry and returns True; any exception is caught and False is
returned with the registry untouched.  The third component is the event
trace in program order. -/
def stop_stream (env : Env) (d : Registry) (sid : String) :
    Registry × Bool × List Ev :=
  match lookupS sid d with
  | none => (d, false, [])
  | some info =>
    if env.terminateRaises info.pid then
      (d, false, [.term info.pid])
    else if env.aliveAfterTerminate info.pid then
      if env.killRaises info.pid then
        (d, false, [.term info.pid, .kill info.pid])
      else
        (removeS sid d, true, [.term info.pid, .kill info.pid, .removeReg sid])
    else
      (removeS sid d, true, [.term info.pid, .removeReg sid])

/-- StreamDecoder.start_stream.  If the id is already present it first
calls stop_stream (discarding its result), then spawns (Popen may raise:
env.spawn = none), stores the new entry with status "starting" and the
spawn timestamp, and returns True; a spawn exception yields False with the
registry as the embedded stop left it. -/
def start_stream (env : Env) (d : Registry) (sid stream_url stream_type : String) :
    Registry × Bool × List Ev :=
  let stopped :=
    if (lookupS sid d).isSome then
      ((stop_stream env d sid).1, (stop_stream env d sid).2.2)
    else (d, [])
  match env.spawn with
  | none => (stopped.1, false, stopped.2)
  | some pid =>
    (insertS sid ⟨pid, stream_url, stream_type, env.now, .starting⟩ stopped.1,
      true, stopped.2 ++ [.spawnEv pid, .insertReg sid])

/-- The shapes a get_stream_status result dict can take: the not-found
dict, the one-field stopped dict, or the full four-field payload. -/
inductive StatusResult where
  | notFound
  | stoppedOnly
  | full (status : Status) (url : String) (stype : String) (duration : Nat)
deriving Repr, DecidableEq

/-- Whether a status result is the full four-field payload. -/
def StatusResult.isFull : StatusResult → Bool
  | .full _ _ _ _ => true
  | _ => false

/-- StreamDecoder.get_stream_status.  Unknown id: the not-found dict.
Present id whose process poll() reports exit: the one-field stopped dict.
Otherwise the full payload read from the entry.  The registry is threaded
unchanged, mirroring that the method performs no mutation. -/
def get_stream_status (env : Env) (d : Registry) (sid : String) :
    Registry × StatusResult :=
  match lookupS sid d with
  | none => (d, .notFound)
  | some info =>
    if env.exited info.pid then (d, .stoppedOnly)
    else (d, .full info.status info.url info.stype (env.now - info.start_time))

/-- StreamDecoder.get_all_streams: get_stream_status for every stored id. -/
def get_all_streams (env : Env) (d : Registry) : List (String × StatusResult) :=
  d.map (fun p => (p.1, (get_stream_status env d p.1).2))

/-- StreamDecoder._parse_ffmpeg_output: line classification.  A line
containing both "Stream #" and "Video:" sets the status to playing; after
that, a line containing "Error" or "Failed" sets the status to error. -/
def _parse_ffmpeg_output (d : Registry) (sid line : String) : Registry :=
  match lookupS sid d with
  | none => d
  | some _ =>
    let d1 := if pyIn "Stream #" line && pyIn "Video:" line then
        updStatus sid .playing d
      else d
    if pyIn "Error" line || pyIn "Failed" line then updStatus sid .error d1
    else d1

/-- One iteration of the StreamDecoder._monitor_stream loop: exit the loop
when the id is no longer registered; when poll() reports process exit,
mark the entry stopped and exit the loop; otherwise classify the line read
from stderr (if any) and continue.  The Bool is the continue flag. -/
def monitor_step (env : Env) (d : Registry) (sid : String)
    (line : Option String) : Registry × Bool :=
  match lookupS sid d with
  | none => (d, false)
  | some info =>
    if env.exited info.pid then (updStatus sid .stopped d, false)
    else
      match line with
      | some l => (_parse_ffmpeg_output d sid l, true)
      | none => (d, true)

/-- Modelled from the words of the spec only (not from the source), for
comparison with the source classifier: case-insensitive matching of the
error vocabulary, a line containing "error" or "failed" in any casing. -/
def specErrorLine (line : String) : Bool :=
  pyIn "error" (strLower line) || pyIn "failed" (strLower line)

/-- A one-entry registry holding session s1 with process 7, used as the
concrete input of several counterexamples. -/
def dOne : Registry := [("s1", ⟨7, "u", "udp", 0, .playing⟩)]

/-- Environment where no call raises, every process is still alive, and a
spawn would yield process 9 at time 5. -/
def envQuiet : Env :=
  { exited := fun _ => false
    terminateRaises := fun _ => false
    aliveAfterTerminate := fun _ => false
    killRaises := fun _ => false
    spawn := some 9
    now := 5 }

/-- Environment where every process has already exited. -/
def envAllDead : Env :=
  { exited := fun _ => true
    terminateRaises := fun _ => false
    aliveAfterTerminate := fun _ => false
    killRaises := fun _ => false
    spawn := some 9
    now := 5 }

/-- Environment where terminate() raises on every process. -/
def envTermRaises : Env :=
  { exited := fun _ => false
    terminateRaises := fun _ => true
    aliveAfterTerminate := fun _ => false
    killRaises := fun _ => false
    spawn := some 9
    now := 5 }

/-- Environment where every process survives terminate() and must be
force-killed, and the kill succeeds. -/
def envForceKill : Env :=
  { exited := fun _ => false
    terminateRaises := fun _ => false
    aliveAfterTerminate := fun _ => true
    killRaises := fun _ => false
    spawn := some 9
    now := 5 }

/-- A one-entry registry holding session s1 with process 7 still in the
starting state. -/
def dStarting : Registry := [("s1", ⟨7, "u", "udp", 0, .starting⟩)]

/-- Removing a key from the registry makes its lookup fail. -/
theorem lookupS_removeS_self (sid : String) (l : Registry) :
    lookupS sid (removeS sid l) = none := by
  induction l with
  | nil => rfl
  | cons p ps ih =>
    by_cases h : p.1 = sid
    · simp [removeS, h, ih]
    · simp [removeS, h, lookupS, ih]

/-- Removing a key from the registry leaves no entry under it. -/
theorem countKey_removeS_self (sid : String) (l : Registry) :
    countKey sid (removeS sid l) = 0 := by
  induction l with
  | nil => rfl
  | cons p ps ih =>
    by_cases h : p.1 = sid
    · simp [removeS, h, ih]
    · simp [removeS, countKey, h, ih]

/-- Lookup after a status update returns the stored entry with only its
status field changed. -/
theorem lookupS_updStatus (sid : String) (st : Status) (l : Registry) :
    lookupS sid (updStatus sid st l)
      = (lookupS sid l).map (fun i => { i with status := st }) := by
  induction l with
  | nil => rfl
  | cons p ps ih =>
    by_cases h : p.1 = sid
    · simp [updStatus, h, lookupS]
    · simp [updStatus, h, lookupS, ih]

/-- The per-session output sink path determines the session id. -/
theorem outputSinkPath_inj (i j : String) (h : outputSinkPath i = outputSinkPath j) :
    i = j := by
  unfold outputSinkPath at h
  have h2 := congrArg String.data h
  simp [String.data_append] at h2
  exact String.ext h2

/-- C1: refuted as stated.  On the concrete one-session registry dOne in
the quiet environment, the stop_stream event trace is termination first
and registry removal second, so registry removal does not precede issuing
termination to the process handle. -/
theorem C1_counterexample :
    (stop_stream envQuiet dOne "s1").2.2 = [Ev.term 7, Ev.removeReg "s1"] ∧
    ¬ evBefore (.removeReg "s1") (.term 7) (stop_stream envQuiet dOne "s1").2.2 := by
  decide

/-- C1 (amended): for an active id, in any run of stop_stream that hits no
exception, termination is issued to the process handle first and the
registry entry is removed second; on return the id is absent from the
registry (even when the process has not gracefully exited and had to be
force-killed) and the call reports success. -/
theorem C1_stop_terminates_then_removes (env : Env) (d : Registry)
    (sid : String) (info : StreamInfo)
    (h : lookupS sid d = some info)
    (ht : env.terminateRaises info.pid = false)
    (hk : env.aliveAfterTerminate info.pid = true → env.killRaises info.pid = false) :
    (stop_stream env d sid).1 = removeS sid d ∧
    (stop_stream env d sid).2.1 = true ∧
    evBefore (.term info.pid) (.removeReg sid) (stop_stream env d sid).2.2 ∧
    lookupS sid (stop_stream env d sid).1 = none := by
  by_cases ha : env.aliveAfterTerminate info.pid = true
  · have hk' := hk ha
    simp [stop_stream, h, ht, ha, hk', evBefore, idxOfEv, lookupS_removeS_self]
  · simp only [Bool.not_eq_true] at ha
    simp [stop_stream, h, ht, ha, evBefore, idxOfEv, lookupS_removeS_self]

/-- C1 (amended) at the concrete inputs of the counterexample. -/
theorem C1_stop_terminates_then_removes_witness :
    (stop_stream envQuiet dOne "s1").1 = removeS "s1" dOne ∧
    (stop_stream envQuiet dOne "s1").2.1 = true ∧
    evBefore (.term 7) (.removeReg "s1") (stop_stream envQuiet dOne "s1").2.2 ∧
    lookupS "s1" (stop_stream envQuiet dOne "s1").1 = none :=
  C1_stop_terminates_then_removes envQuiet dOne "s1" ⟨7, "u", "udp", 0, .playing⟩
    (by decide) (by decide) (fun _ => by decide)

/-- C2: refuted as stated.  After the monitor observes the exit of process
7 and terminates (continue flag false), the id s1 is still present in the
registry and still appears in the get_all_streams listing; it is reported
stopped but is not removed without caller action. -/
theorem C2_counterexample :
    (monitor_step envAllDead dOne "s1" none).2 = false ∧
    (lookupS "s1" (monitor_step envAllDead dOne "s1" none).1).isSome = true ∧
    get_all_streams envAllDead (monitor_step envAllDead dOne "s1" none).1
      = [("s1", .stoppedOnly)] ∧
    (get_stream_status envAllDead (monitor_step envAllDead dOne "s1" none).1 "s1").2
      = .stoppedOnly := by
  decide

/-- C2 (amended): when the monitor observes that the process of a
registered session has exited, it marks the stored entry stopped and
terminates, and getStatus reports the session as stopped; the registry
entry is kept (it is not removed without an explicit stopSession), so the
id remains in the registry. -/
theorem C2_monitor_marks_stopped_keeps_entry (env : Env) (d : Registry)
    (sid : String) (info : StreamInfo)
    (h : lookupS sid d = some info) (hx : env.exited info.pid = true) :
    monitor_step env d sid none = (updStatus sid .stopped d, false) ∧
    lookupS sid (monitor_step env d sid none).1 = some { info with status := .stopped } ∧
    (get_stream_status env (monitor_step env d sid none).1 sid).2 = .stoppedOnly := by
  simp [monitor_step, h, hx, lookupS_updStatus, get_stream_status]

/-- C2 (amended) at the concrete inputs of the counterexample. -/
theorem C2_monitor_marks_stopped_keeps_entry_witness :
    monitor_step envAllDead dOne "s1" none = (updStatus "s1" .stopped dOne, false) ∧
    lookupS "s1" (monitor_step envAllDead dOne "s1" none).1
      = some ⟨7, "u", "udp", 0, .stopped⟩ ∧
    (get_stream_status envAllDead (monitor_step envAllDead dOne "s1" none).1 "s1").2
      = .stoppedOnly :=
  C2_monitor_marks_stopped_keeps_entry envAllDead dOne "s1" ⟨7, "u", "udp", 0, .playing⟩
    (by decide) (by decide)

/-- C3: refuted as stated.  In the environment where terminate() raises on
process 7, the stop embedded in start_stream fails (returns failure,
removes nothing, kills nothing), yet start_stream still spawns process 9,
overwrites the entry and returns success: the existing session was not
fully stopped (terminated and removed) before the new spawn and insert. -/
theorem C3_counterexample :
    stop_stream envTermRaises dOne "s1" = (dOne, false, [Ev.term 7]) ∧
    start_stream envTermRaises dOne "s1" "u2" "rtmp"
      = ([("s1", ⟨9, "u2", "rtmp", 5, .starting⟩)], true,
          [Ev.term 7, Ev.spawnEv 9, Ev.insertReg "s1"]) := by
  decide

/-- C3 (amended): for an id already present, when the embedded stop hits
no exception and the spawn succeeds, start_stream removes the old session
from the registry before the spawn and insertion events, stores exactly
one (the new) entry under the id, and returns success: restart rather than
error. -/
theorem C3_restart_idempotent (env : Env) (d : Registry) (sid u t : String)
    (old : StreamInfo) (pid : Nat)
    (h : lookupS sid d = some old)
    (ht : env.terminateRaises old.pid = false)
    (hk : env.aliveAfterTerminate old.pid = true → env.killRaises old.pid = false)
    (hs : env.spawn = some pid) :
    (start_stream env d sid u t).1
      = insertS sid ⟨pid, u, t, env.now, .starting⟩ (removeS sid d) ∧
    (start_stream env d sid u t).2.1 = true ∧
    lookupS sid (start_stream env d sid u t).1
      = some ⟨pid, u, t, env.now, .starting⟩ ∧
    countKey sid (start_stream env d sid u t).1 = 1 ∧
    evBefore (.removeReg sid) (.spawnEv pid) (start_stream env d sid u t).2.2 ∧
    evBefore (.spawnEv pid) (.insertReg sid) (start_stream env d sid u t).2.2 := by
  by_cases ha : env.aliveAfterTerminate old.pid = true
  · have hk' := hk ha
    simp [start_stream, stop_stream, h, ht, ha, hk', hs, insertS, lookupS,
      countKey, countKey_removeS_self, evBefore, idxOfEv]
  · simp only [Bool.not_eq_true] at ha
    simp [start_stream, stop_stream, h, ht, ha, hs, insertS, lookupS,
      countKey, countKey_removeS_self, evBefore, idxOfEv]

/-- C3 (amended) at concrete inputs: restarting s1 in the quiet
environment replaces process 7 by process 9. -/
theorem C3_restart_idempotent_witness :
    (start_stream envQuiet dOne "s1" "u2" "rtmp").1
      = insertS "s1" ⟨9, "u2", "rtmp", 5, .starting⟩ (removeS "s1" dOne) ∧
    (start_stream envQuiet dOne "s1" "u2" "rtmp").2.1 = true ∧
    lookupS "s1" (start_stream envQuiet dOne "s1" "u2" "rtmp").1
      = some ⟨9, "u2", "rtmp", 5, .starting⟩ ∧
    countKey "s1" (start_stream envQuiet dOne "s1" "u2" "rtmp").1 = 1 ∧
    evBefore (.removeReg "s1") (.spawnEv 9)
      (start_stream envQuiet dOne "s1" "u2" "rtmp").2.2 ∧
    evBefore (.spawnEv 9) (.insertReg "s1")
      (start_stream envQuiet dOne "s1" "u2" "rtmp").2.2 :=
  C3_restart_idempotent envQuiet dOne "s1" "u2" "rtmp" ⟨7, "u", "udp", 0, .playing⟩ 9
    (by decide) (by decide) (fun _ => by decide) (by decide)

/-- C4: refuted as stated.  The line containing the lowercase word failed
matches the case-insensitive error vocabulary of the spec, yet the source
classifier (which tests the capitalized substrings) leaves the session in
the starting state instead of moving it to error. -/
theorem C4_counterexample :
    specErrorLine "download failed" = true ∧
    lookupS "s1" (_parse_ffmpeg_output dStarting "s1" "download failed")
      = some ⟨7, "u", "udp", 0, .starting⟩ := by
  decide

/-- C4 (amended): for every registered session and every diagnostic line,
if the line contains the capitalized substring Error or Failed
(case-sensitive matching), the classifier moves the session from any state
to the error state; in particular a line containing the text Error:
connection refused while the state is starting drives the state to error. -/
theorem C4_error_line_sets_error (d : Registry) (sid line : String)
    (info : StreamInfo)
    (h : lookupS sid d = some info)
    (he : (pyIn "Error" line || pyIn "Failed" line) = true) :
    lookupS sid (_parse_ffmpeg_output d sid line)
      = some { info with status := .error } := by
  unfold _parse_ffmpeg_output
  rw [h]
  by_cases hv : (pyIn "Stream #" line && pyIn "Video:" line) = true
  · simp [hv, he, lookupS_updStatus, h]
  · simp only [Bool.not_eq_true] at hv
    simp [hv, he, lookupS_updStatus, h]

/-- C4 (amended) at the scenario input: the connection-refused error line
while s1 is starting. -/
theorem C4_error_line_sets_error_witness :
    lookupS "s1" (_parse_ffmpeg_output dStarting "s1" "Error: connection refused")
      = some ⟨7, "u", "udp", 0, .error⟩ :=
  C4_error_line_sets_error dStarting "s1" "Error: connection refused"
    ⟨7, "u", "udp", 0, .starting⟩ (by decide) (by decide)

/-- C5: refuted as stated.  In the environment where terminate() raises on
process 7, stop_stream returns failure and keeps the entry for s1 in the
registry, instead of removing it and returning success. -/
theorem C5_counterexample :
    stop_stream envTermRaises dOne "s1" = (dOne, false, [Ev.term 7]) ∧
    lookupS "s1" (stop_stream envTermRaises dOne "s1").1
      = some ⟨7, "u", "udp", 0, .playing⟩ := by
  decide

/-- C5 (amended): when graceful termination leaves the process alive and
force-kill escalation is required and the kill call itself succeeds,
stop_stream still removes the id from the registry and returns success;
but when terminate() or kill() raises, the call returns failure and leaves
the registry unchanged. -/
theorem C5_forcekill_still_success (env : Env) (d : Registry) (sid : String)
    (info : StreamInfo)
    (h : lookupS sid d = some info)
    (ht : env.terminateRaises info.pid = false)
    (ha : env.aliveAfterTerminate info.pid = true)
    (hk : env.killRaises info.pid = false) :
    stop_stream env d sid
      = (removeS sid d, true, [.term info.pid, .kill info.pid, .removeReg sid]) ∧
    lookupS sid (stop_stream env d sid).1 = none := by
  simp [stop_stream, h, ht, ha, hk, lookupS_removeS_self]

/-- C5 (amended) at concrete inputs: process 7 survives terminate() and is
force-killed; s1 is removed and the call succeeds. -/
theorem C5_forcekill_still_success_witness :
    stop_stream envForceKill dOne "s1"
      = (removeS "s1" dOne, true, [.term 7, .kill 7, .removeReg "s1"]) ∧
    lookupS "s1" (stop_stream envForceKill dOne "s1").1 = none :=
  C5_forcekill_still_success envForceKill dOne "s1" ⟨7, "u", "udp", 0, .playing⟩
    (by decide) (by decide) (by decide) (by decide)

/-- C6: for an id absent from the registry, get_stream_status returns the
typed not-found result and stop_stream returns failure with no events and
no state change; the not-found result is a constructor distinct from the
stopped dict and is not a four-field payload. -/
theorem C6_unknown_id_not_found (env : Env) (d : Registry) (y : String)
    (h : lookupS y d = none) :
    (get_stream_status env d y).2 = .notFound ∧
    stop_stream env d y = (d, false, []) ∧
    StatusResult.notFound ≠ .stoppedOnly ∧
    StatusResult.notFound.isFull = false := by
  simp [get_stream_status, stop_stream, h, StatusResult.isFull]

/-- C6 at a concrete unknown id on the empty registry. -/
theorem C6_unknown_id_not_found_witness :
    (get_stream_status envQuiet [] "zzz").2 = .notFound ∧
    stop_stream envQuiet [] "zzz" = ([], false, []) ∧
    StatusResult.notFound ≠ .stoppedOnly ∧
    StatusResult.notFound.isFull = false :=
  C6_unknown_id_not_found envQuiet [] "zzz" rfl

/-- C7: refuted as stated.  The id s1 is present in the registry, yet
because its process has exited, get_stream_status returns the one-field
stopped dict, not a payload carrying the four fields state, source
locator, protocol hint and duration. -/
theorem C7_counterexample :
    lookupS "s1" dOne = some ⟨7, "u", "udp", 0, .playing⟩ ∧
    (get_stream_status envAllDead dOne "s1").2 = .stoppedOnly ∧
    ((get_stream_status envAllDead dOne "s1").2).isFull = false := by
  decide

/-- C7 (amended): for every id present in the registry, get_stream_status
returns the four-field payload when the process is still alive and the
one-field stopped dict when the process has exited; the not-found result
is never returned for a present id. -/
theorem C7_status_payload_fields (env : Env) (d : Registry) (sid : String)
    (info : StreamInfo)
    (h : lookupS sid d = some info) :
    (get_stream_status env d sid).2
      = (if env.exited info.pid then .stoppedOnly
         else .full info.status info.url info.stype (env.now - info.start_time)) ∧
    (get_stream_status env d sid).2 ≠ .notFound := by
  by_cases hx : env.exited info.pid = true
  · simp [get_stream_status, h, hx]
  · simp only [Bool.not_eq_true] at hx
    simp [get_stream_status, h, hx]

/-- C7 (amended) at concrete inputs: s1 live in the quiet environment
yields the four-field payload. -/
theorem C7_status_payload_fields_witness :
    (get_stream_status envQuiet dOne "s1").2
      = (if envQuiet.exited 7 then .stoppedOnly
         else .full .playing "u" "udp" 5) ∧
    (get_stream_status envQuiet dOne "s1").2 ≠ .notFound :=
  C7_status_payload_fields envQuiet dOne "s1" ⟨7, "u", "udp", 0, .playing⟩ (by decide)

/-- C8: the command builder is a pure function, so identical inputs yield
the identical invocation; distinct session ids yield distinct output sink
paths, and the sink path derived from the id occurs in the built argument
vector. -/
theorem C8_builder_pure_unique_sinks (cfg : FfmpegConfig) (u t i j : String)
    (hne : i ≠ j) :
    _build_ffmpeg_command cfg u t i = _build_ffmpeg_command cfg u t i ∧
    outputSinkPath i ≠ outputSinkPath j ∧
    outputSinkPath i ∈ _build_ffmpeg_command cfg u t i := by
  refine ⟨rfl, fun hEq => hne (outputSinkPath_inj i j hEq), ?_⟩
  simp [_build_ffmpeg_command]

/-- C8 at concrete inputs: two distinct ids under the repository
configuration. -/
theorem C8_builder_pure_unique_sinks_witness :
    _build_ffmpeg_command theConfig "h:9000" "srt" "s1"
      = _build_ffmpeg_command theConfig "h:9000" "srt" "s1" ∧
    outputSinkPath "s1" ≠ outputSinkPath "s2" ∧
    outputSinkPath "s1" ∈ _build_ffmpeg_command theConfig "h:9000" "srt" "s1" :=
  C8_builder_pure_unique_sinks theConfig "h:9000" "srt" "s1" "s2" (by decide)

/-- C9: for a session present in the registry whose process has already
exited, get_stream_status returns the stopped report and the registry it
threads back is exactly the input registry: the query inserts, removes and
mutates nothing. -/
theorem C9_getStatus_pure_reports_stopped (env : Env) (d : Registry)
    (sid : String) (info : StreamInfo)
    (h : lookupS sid d = some info) (hx : env.exited info.pid = true) :
    get_stream_status env d sid = (d, .stoppedOnly) := by
  simp [get_stream_status, h, hx]

/-- C9 at concrete inputs: s1 present, process 7 exited. -/
theorem C9_getStatus_pure_reports_stopped_witness :
    get_stream_status envAllDead dOne "s1" = (dOne, .stoppedOnly) :=
  C9_getStatus_pure_reports_stopped envAllDead dOne "s1"
    ⟨7, "u", "udp", 0, .playing⟩ (by decide) (by decide)

/-- C10: for a registered session, a single diagnostic line matching both
the video-track pattern (contains Stream # and Video:) and the error
pattern (contains Error or Failed) leaves the session in the error state:
the error classification runs after and overrides the playing
classification. -/
theorem C10_error_overrides_playing (d : Registry) (sid line : String)
    (info : StreamInfo)
    (h : lookupS sid d = some info)
    (hv : (pyIn "Stream #" line && pyIn "Video:" line) = true)
    (he : (pyIn "Error" line || pyIn "Failed" line) = true) :
    lookupS sid (_parse_ffmpeg_output d sid line)
      = some { info with status := .error } := by
  simp [_parse_ffmpeg_output, h, hv, he, lookupS_updStatus]

/-- C10 at a concrete line matching both patterns. -/
theorem C10_error_overrides_playing_witness :
    lookupS "s1" (_parse_ffmpeg_output dStarting "s1" "Stream #0 Video: Error")
      = some ⟨7, "u", "udp", 0, .error⟩ :=
  C10_error_overrides_playing dStarting "s1" "Stream #0 Video: Error"
    ⟨7, "u", "udp", 0, .starting⟩ (by decide) (by decide) (by decide)

end RpiPlayer
